import Mathlib

/-!
Verification of the `simple_on_shutdown` crate (src/src/lib.rs) against its
natural-language specification.

The crate is a deferred-action guard: `OnShutdownCallback` owns one boxed
zero-argument closure (`Box<dyn FnMut()>`), and its `Drop` implementation
invokes that closure, surrounded by two `debug!` log records and a timing
measurement.  Two declarative front ends, `on_shutdown!` and
`on_shutdown_move!`, expand to
`let _on_shutdown_callback_1337deadbeeffoobaraffecoffee =
   OnShutdownCallback::new(Box::new(|| $cb))`
(with `move ||` for the second one).

The embedding below models

  * observable events (print output and debug-level log records),
  * closures as capture mode plus the effects and running time of one
    execution of the body (the bodies that reach the guard capture no
    surrounding state, so one fixed event list per body is faithful),
  * the guard type and its destructor, translated line by line from
    lib.rs 80-102; the `Instant` clock is threaded explicitly as a natural
    number of elapsed microseconds, and the `f64` division producing the
    seconds figure is modelled as exact rational division,
  * straight-line scopes: a list of statements run in order, with the Rust
    drop discipline at scope exit (local values destroyed in reverse
    declaration order; a shadowing `let` hides the earlier binding but does
    not destroy its value early, so the value still lives to scope end),
  * the callback-source grammar accepted by the two declarative front ends
    and the typing constraint that `Box<dyn FnMut()>` places on the closure
    they generate.
-/

/-- An observable event: `out s` is program output (`println!`), `debug s` is a
debug-level log record with message `s` (`debug!` with a plain message), and
`debugElapsed secs usecs` is the debug-level log record emitted after the
callback ran, reporting the elapsed duration both as fractional seconds and as
whole microseconds (lib.rs 97-100, format string
`on shutdown callback finished: took ...s (...us)`). -/
inductive Event
  | out (s : String)
  | debug (s : String)
  | debugElapsed (secs : ℚ) (usecs : ℕ)
deriving DecidableEq

/-- Whether an event is a debug-level log record. -/
def Event.isDebug : Event → Bool
  | .out _ => false
  | .debug _ => true
  | .debugElapsed _ _ => true

/-- How a Rust closure captures its environment: by reference (plain `||`) or
by value (`move ||`). -/
inductive CaptureMode
  | byRef
  | byMove
deriving DecidableEq

/-- A zero-parameter Rust closure value: its capture mode, the observable
effects of running its body once, and the time (in whole microseconds) that one
run of the body takes.  The callback bodies that reach the guard in this crate
capture no surrounding state, so a fixed event list per body is a faithful
model of the body. -/
structure Closure where
  mode : CaptureMode
  effects : List Event
  cost : ℕ
deriving DecidableEq

/-- `pub struct OnShutdownCallback(Box<dyn FnMut()>)` (lib.rs 80): the guard
owns exactly one boxed closure.  The field is not optional; a constructed
guard always holds a closure. -/
structure OnShutdownCallback where
  callback : Closure
deriving DecidableEq

/-- `OnShutdownCallback::new` (lib.rs 85-87): wraps the boxed closure. -/
def OnShutdownCallback.new (inner : Closure) : OnShutdownCallback :=
  ⟨inner⟩

/-- `impl Drop for OnShutdownCallback` (lib.rs 89-102), with the clock threaded
explicitly: given the clock value `t` (microseconds) when destruction starts,
returns the emitted events, the clock afterwards, and the state of the guard
after the destructor body ran.  Line by line: `debug!("on shutdown callback:")`;
`let now = Instant::now()`; `(self.0)()` runs the stored closure body, which
takes `cost` microseconds; `duration_usecs = now.elapsed().as_micros()`;
`duration_secs = duration_usecs as f64 / 1_000_000_f64` (the `f64` division is
modelled as exact rational division); the final `debug!` reports both figures.
`drop` receives `&mut self` and calls the closure through that borrow, moving
nothing out, so the guard still holds the same closure afterwards. -/
def OnShutdownCallback.drop (t : ℕ) (g : OnShutdownCallback) :
    List Event × ℕ × OnShutdownCallback :=
  let now := t
  let t1 := t + g.callback.cost
  let duration_usecs := t1 - now
  let duration_secs : ℚ := (duration_usecs : ℚ) / 1000000
  (Event.debug "on shutdown callback:" :: g.callback.effects
      ++ [Event.debugElapsed duration_secs duration_usecs],
    t1, g)

/-- The events one destructor run emits for a guard holding closure `c`: the
pre-invocation debug record, the callback effects, then the post-invocation
debug record carrying the elapsed duration (which equals the cost of the body,
independently of the clock value at which destruction started). -/
def dropTrace (c : Closure) : List Event :=
  Event.debug "on shutdown callback:" :: c.effects
    ++ [Event.debugElapsed ((c.cost : ℚ) / 1000000) c.cost]

theorem OnShutdownCallback.drop_eq (t : ℕ) (g : OnShutdownCallback) :
    OnShutdownCallback.drop t g = (dropTrace g.callback, t + g.callback.cost, g) := by
  simp [OnShutdownCallback.drop, dropTrace]

/-- The fixed identifier every expansion of the two declarative front ends
binds its guard to (lib.rs 153 and 196). -/
def onShutdownIdent : String :=
  "_on_shutdown_callback_1337deadbeeffoobaraffecoffee"

/-- A straight-line statement of the fragment of Rust the claims are about:
`print s` is `println!(s)`; `declareGuard c` is the expansion of one of the two
declarative front ends, that is `let <fixed identifier> =
OnShutdownCallback::new(Box::new(c))`; `exprGuard c` is the misuse where
`OnShutdownCallback::new(Box::new(c))` is evaluated as an unbound expression
statement, so the guard is a temporary. -/
inductive Stmt
  | print (s : String)
  | declareGuard (c : Closure)
  | exprGuard (c : Closure)

/-- Runs a list of statements.  State: the clock `t`, and the live local
guard bindings `gs` of the enclosing scope in declaration order, each with the
identifier it is bound to.  Returns the events emitted by the statements
themselves, the final clock, and the final bindings.  A `declareGuard` emits
nothing and appends a binding: a later `let` with the same identifier shadows
the earlier binding but, per the Rust drop discipline, does not destroy the
earlier value, which stays in the list until scope exit.  An `exprGuard`
creates a temporary that is destroyed at the end of its own statement, so its
destructor runs immediately. -/
def runStmts : ℕ → List (String × OnShutdownCallback) → List Stmt →
    List Event × ℕ × List (String × OnShutdownCallback)
  | t, gs, [] => ([], t, gs)
  | t, gs, Stmt.print s :: rest =>
      let r := runStmts t gs rest
      (Event.out s :: r.1, r.2)
  | t, gs, Stmt.declareGuard c :: rest =>
      runStmts t (gs ++ [(onShutdownIdent, OnShutdownCallback.new c)]) rest
  | t, gs, Stmt.exprGuard c :: rest =>
      let d := OnShutdownCallback.drop t (OnShutdownCallback.new c)
      let r := runStmts d.2.1 gs rest
      (d.1 ++ r.1, r.2)

/-- Destroys a list of guards in the order given, threading the clock. -/
def dropSeq : ℕ → List OnShutdownCallback → List Event × ℕ
  | t, [] => ([], t)
  | t, g :: rest =>
      let d := OnShutdownCallback.drop t g
      let r := dropSeq d.2.1 rest
      (d.1 ++ r.1, r.2)

/-- Runs a scope to completion under normal control flow: the statements run
in order, then every local guard still live at scope exit is destroyed in
reverse declaration order (the Rust drop discipline for local variables). -/
def runScope (t : ℕ) (body : List Stmt) : List Event × ℕ :=
  let r := runStmts t [] body
  let d := dropSeq r.2.1 (r.2.2.map Prod.snd).reverse
  (r.1 ++ d.1, d.2)

/-- A callback-source expression handed to `on_shutdown!` or
`on_shutdown_move!`, covering the forms the crate documents and its example
`examples/minimal.rs` exercises: a bare unit-valued expression such as
`println!(..)`, a block of statements, a plain closure expression `|| body`, a
move closure expression `move || body`, and an identifier bound to a
previously declared closure.  For the two expression forms and the block form,
the arguments are the effects and the cost of evaluating the source once.  For
the three closure-valued forms, the arguments are the effects and the cost of
the closure BODY; evaluating a closure expression itself merely builds the
closure value and has no effects. -/
inductive CbSource
  | bareExpr (effects : List Event) (cost : ℕ)
  | blockStmts (effects : List Event) (cost : ℕ)
  | closureExpr (body : List Event) (bodyCost : ℕ)
  | moveClosureExpr (body : List Event) (bodyCost : ℕ)
  | namedClosure (body : List Event) (bodyCost : ℕ)
deriving DecidableEq

/-- The value category of the fragment of Rust types the sources involve:
the unit type `()` or some closure type. -/
inductive RustTy
  | unit
  | closureTy
deriving DecidableEq

/-- The type of the value a callback source evaluates to: `println!(..)` and
the blocks used here are unit valued; the three closure-valued forms evaluate
to closure values. -/
def CbSource.resultTy : CbSource → RustTy
  | .bareExpr _ _ => RustTy.unit
  | .blockStmts _ _ => RustTy.unit
  | .closureExpr _ _ => RustTy.closureTy
  | .moveClosureExpr _ _ => RustTy.closureTy
  | .namedClosure _ _ => RustTy.closureTy

/-- The events emitted by evaluating a callback source once: a bare expression
or block performs its effects; evaluating a closure expression or a closure
identifier builds or copies a closure value and emits nothing — the closure
body does not run. -/
def CbSource.evalEffects : CbSource → List Event
  | .bareExpr effects _ => effects
  | .blockStmts effects _ => effects
  | .closureExpr _ _ => []
  | .moveClosureExpr _ _ => []
  | .namedClosure _ _ => []

/-- The time one evaluation of a callback source takes: evaluating a closure
expression without calling it is free. -/
def CbSource.evalCost : CbSource → ℕ
  | .bareExpr _ cost => cost
  | .blockStmts _ cost => cost
  | .closureExpr _ _ => 0
  | .moveClosureExpr _ _ => 0
  | .namedClosure _ _ => 0

/-- Whether the expansion of `on_shutdown!(src)` type-checks.  Both arms of
the declarative front end normalize to `OnShutdownCallback::new(Box::new(||
{ src }))` (lib.rs 148-167), and `OnShutdownCallback::new` demands a
`Box<dyn FnMut()>`, so the generated closure must return `()`: the source
expression, sitting in tail position of the generated body, must itself have
type `()`.  A closure-valued source makes the generated body return that inner
closure, so the expansion is rejected by the type checker. -/
def onShutdownWellTyped (src : CbSource) : Bool :=
  src.resultTy == RustTy.unit

/-- The guard built by the expansion of `on_shutdown!` (lib.rs 146-168): a new
plain (by-reference) closure `|| { src }` is boxed and handed to
`OnShutdownCallback::new`.  Firing that closure evaluates the source once, so
its effects are the evaluation effects of the source — which, for a
closure-valued source, do not include running the inner closure body. -/
def on_shutdown (src : CbSource) : OnShutdownCallback :=
  OnShutdownCallback.new ⟨CaptureMode.byRef, src.evalEffects, src.evalCost⟩

/-- The guard built by the expansion of `on_shutdown_move!` (lib.rs 189-211):
identical to `on_shutdown` except that the generated closure is
`move || { src }`. -/
def on_shutdown_move (src : CbSource) : OnShutdownCallback :=
  OnShutdownCallback.new ⟨CaptureMode.byMove, src.evalEffects, src.evalCost⟩

/-- The five callback sources that `main` in `examples/minimal.rs` (lines
3-15) passes to `on_shutdown!`, in order: a direct expression, a closure
expression, a move closure expression, a block, and an identifier bound to a
closure.  Every one of the five bodies is `println!("shut down with
success")`. -/
def minimalMainSources : List CbSource :=
  [ CbSource.bareExpr [Event.out "shut down with success"] 0,
    CbSource.closureExpr [Event.out "shut down with success"] 0,
    CbSource.moveClosureExpr [Event.out "shut down with success"] 0,
    CbSource.blockStmts [Event.out "shut down with success"] 0,
    CbSource.namedClosure [Event.out "shut down with success"] 0 ]

theorem runStmts_append (l1 l2 : List Stmt) (t : ℕ)
    (gs : List (String × OnShutdownCallback)) :
    runStmts t gs (l1 ++ l2) =
      ((runStmts t gs l1).1
          ++ (runStmts (runStmts t gs l1).2.1 (runStmts t gs l1).2.2 l2).1,
        (runStmts (runStmts t gs l1).2.1 (runStmts t gs l1).2.2 l2).2) := by
  induction l1 generalizing t gs with
  | nil => simp [runStmts]
  | cons s rest ih => cases s <;> simp [runStmts, ih]

theorem runStmts_prints (ss : List String) (t : ℕ)
    (gs : List (String × OnShutdownCallback)) :
    runStmts t gs (ss.map Stmt.print) = (ss.map Event.out, t, gs) := by
  induction ss generalizing t gs with
  | nil => simp [runStmts]
  | cons s rest ih => simp [runStmts, ih]

theorem runStmts_declareGuards (cs : List Closure) (t : ℕ)
    (gs : List (String × OnShutdownCallback)) :
    runStmts t gs (cs.map Stmt.declareGuard)
      = ([], t, gs ++ cs.map fun c => (onShutdownIdent, OnShutdownCallback.new c)) := by
  induction cs generalizing gs with
  | nil => simp [runStmts]
  | cons c rest ih => simp [runStmts, ih]

theorem dropSeq_fst (gl : List OnShutdownCallback) (t : ℕ) :
    (dropSeq t gl).1 = (gl.map fun g => dropTrace g.callback).flatten := by
  induction gl generalizing t with
  | nil => simp [dropSeq]
  | cons g rest ih => simp [dropSeq, OnShutdownCallback.drop_eq, ih]

theorem runScope_guards_prints (cs : List Closure) (post : List String) (t : ℕ) :
    (runScope t (cs.map Stmt.declareGuard ++ post.map Stmt.print)).1
      = post.map Event.out ++ (cs.reverse.map dropTrace).flatten := by
  simp [runScope, runStmts_append, runStmts_declareGuards, runStmts_prints,
    dropSeq_fst, Function.comp_def, List.map_map, OnShutdownCallback.new]

/-- Modelled from the spec: the guard as the specification describes it for
claim C7 — the callback held in an owned optional slot that invocation
extracts and empties, so that after firing the guard holds no callback.  This
definition follows the words of the spec and exists only for comparison with
`OnShutdownCallback`, whose single field is not optional. -/
structure SpecSlotGuard where
  slot : Option Closure
deriving DecidableEq

/-- Modelled from the spec: invocation on the slot model extracts the closure,
runs its body and leaves the slot empty; firing an already empty slot is the
programming-error condition the spec mentions and does nothing here. -/
def SpecSlotGuard.fire : SpecSlotGuard → List Event × SpecSlotGuard
  | ⟨some c⟩ => (c.effects, ⟨none⟩)
  | ⟨none⟩ => ([], ⟨none⟩)

/-- Claim C1: a guard declared in a scope fires its callback exactly once, at
scope exit and not before — the full trace of the scope is the output of every
other statement, both those before and those after the declaration, followed
by exactly one destructor run of the guard.  In particular nothing of the
callback runs at construction time. -/
theorem guard_fires_exactly_once_at_scope_exit (t : ℕ) (pre post : List String)
    (c : Closure) :
    (runScope t (pre.map Stmt.print ++ Stmt.declareGuard c :: post.map Stmt.print)).1
      = pre.map Event.out ++ post.map Event.out ++ dropTrace c := by
  simp [runScope, runStmts_append, runStmts_prints, runStmts, dropSeq,
    OnShutdownCallback.drop_eq, OnShutdownCallback.new]

/-- Claim C2: two guards declared in order in one scope fire in reverse
declaration order at scope exit — the trace ends with the complete destructor
run of the second guard followed by the complete destructor run of the first,
whatever statements surround the two declarations. -/
theorem guards_fire_in_reverse_declaration_order (t : ℕ)
    (pre mid post : List String) (c1 c2 : Closure) :
    (runScope t (pre.map Stmt.print
        ++ Stmt.declareGuard c1 :: (mid.map Stmt.print
        ++ Stmt.declareGuard c2 :: post.map Stmt.print))).1
      = pre.map Event.out ++ mid.map Event.out ++ post.map Event.out
        ++ (dropTrace c2 ++ dropTrace c1) := by
  simp [runScope, runStmts_append, runStmts_prints, runStmts, dropSeq,
    OnShutdownCallback.drop_eq, OnShutdownCallback.new]

/-- Claim C3: the expansion of the declarative front end rejects the three
closure-valued source forms that examples/minimal.rs passes to it.  The
generated closure wraps the source expression in tail position of a new body
that `Box<dyn FnMut()>` forces to return the unit type, so a closure-valued
source fails to type-check; and the thunk built from such a source merely
evaluates the closure expression, so even disregarding types its firing
effects are empty — the body of the inner closure never runs. -/
theorem closure_sources_rejected_and_bodies_never_run :
    onShutdownWellTyped (CbSource.closureExpr [Event.out "shut down with success"] 0) = false
    ∧ onShutdownWellTyped (CbSource.moveClosureExpr [Event.out "shut down with success"] 0) = false
    ∧ onShutdownWellTyped (CbSource.namedClosure [Event.out "shut down with success"] 0) = false
    ∧ (minimalMainSources.filter (fun s => onShutdownWellTyped s)).length = 2
    ∧ (on_shutdown (CbSource.closureExpr [Event.out "shut down with success"] 0)).callback.effects
        = [] := by
  exact ⟨rfl, rfl, rfl, rfl, rfl⟩

/-- Claim C4: a guard whose constructed value is not bound to a name is a
temporary, so its destructor — and with it the stored callback — runs at that
very statement: the trace shows the destructor run between the statements
before it and the statements after it, and nothing fires at scope exit. -/
theorem unbound_guard_fires_immediately (t : ℕ) (pre post : List String)
    (c : Closure) :
    (runScope t (pre.map Stmt.print ++ Stmt.exprGuard c :: post.map Stmt.print)).1
      = pre.map Event.out ++ (dropTrace c ++ post.map Event.out) := by
  simp [runScope, runStmts_append, runStmts_prints, runStmts, dropSeq,
    OnShutdownCallback.drop_eq, OnShutdownCallback.new]

/-- Claim C5, counterexample: the diagnostic record emitted before the
callback runs carries the message `on shutdown callback:` (lib.rs 92), which
differs from the message `about to run shutdown callback` stated by the
claim. -/
theorem drop_pre_message_counterexample :
    (OnShutdownCallback.drop 0
        (OnShutdownCallback.new ⟨CaptureMode.byRef, [], 0⟩)).1.head?
      = some (Event.debug "on shutdown callback:")
    ∧ ("on shutdown callback:" : String) ≠ "about to run shutdown callback" := by
  exact ⟨rfl, by decide⟩

/-- Claim C5, amended: during guard destruction exactly two diagnostic-level
log records are emitted around the callback invocation — one before invocation
with the message `on shutdown callback:` and one after invocation reporting
the elapsed duration both as fractional seconds and as whole microseconds —
and this instrumentation leaves the invocation itself intact: the callback
effects appear unchanged between the two records. -/
theorem drop_emits_two_debug_records (t : ℕ) (g : OnShutdownCallback) :
    (OnShutdownCallback.drop t g).1
      = Event.debug "on shutdown callback:" :: g.callback.effects
          ++ [Event.debugElapsed ((g.callback.cost : ℚ) / 1000000) g.callback.cost]
    ∧ ((OnShutdownCallback.drop t g).1.filter Event.isDebug).length
        = 2 + (g.callback.effects.filter Event.isDebug).length := by
  refine ⟨by simp [OnShutdownCallback.drop_eq, dropTrace], ?_⟩
  simp [OnShutdownCallback.drop_eq, dropTrace, Event.isDebug]
  omega

/-- Claim C7, counterexample: after the destructor body of a concrete guard
has run, the guard still holds the very closure it was constructed with — the
single field of `OnShutdownCallback` is not optional and `drop` calls the
closure through a mutable borrow without moving it out — whereas the optional
slot model taken from the words of the spec leaves an emptied slot behind. -/
theorem guard_still_holds_callback_counterexample :
    (OnShutdownCallback.drop 0
        (OnShutdownCallback.new ⟨CaptureMode.byRef, [Event.out "x"], 7⟩)).2.2
      = OnShutdownCallback.new ⟨CaptureMode.byRef, [Event.out "x"], 7⟩
    ∧ (SpecSlotGuard.fire ⟨some ⟨CaptureMode.byRef, [Event.out "x"], 7⟩⟩).2.slot
        = none := by
  exact ⟨rfl, rfl⟩

/-- Claim C7, amended: one destructor run invokes the stored callback exactly
once through a mutable borrow and leaves the guard state unchanged — the
callback is still stored afterwards, with no optional slot being emptied; a
second invocation is impossible only because the language runs the destructor
of each instance at most once, as the scope semantics of this development
show. -/
theorem callback_retained_after_drop (t : ℕ) (g : OnShutdownCallback) :
    (OnShutdownCallback.drop t g).2.2 = g
    ∧ (OnShutdownCallback.drop t g).1 = dropTrace g.callback := by
  simp [OnShutdownCallback.drop_eq]

/-- Claim C8: construction is total — for every closure the constructor
returns a guard value storing exactly that closure — and running a scope to
completion, including scope exit and the timing instrumentation, is likewise
total: every scope body yields a trace and a final clock.  Allocation
exhaustion while boxing the closure is outside the memory model of this
embedding. -/
theorem construction_and_operations_total (c : Closure) (t : ℕ)
    (body : List Stmt) :
    (OnShutdownCallback.new c).callback = c
    ∧ ∃ tr tFinal, runScope t body = (tr, tFinal) := by
  exact ⟨rfl, (runScope t body).1, (runScope t body).2, rfl⟩

/-- Claim C9: every expansion of the declarative front end binds its guard to
the same fixed identifier, yet repeated use in one scope shadows rather than
replaces — all the bindings carry that one identifier, no callback fires
before scope exit (the statements after the declarations produce their output
first), and at scope exit every registered callback fires, in reverse
registration order. -/
theorem shadowed_guards_all_fire_at_scope_exit (t : ℕ) (srcs : List CbSource)
    (post : List String) :
    ((runStmts t [] (srcs.map fun s => Stmt.declareGuard (on_shutdown s).callback)).2.2.map
          Prod.fst
        = srcs.map fun _ => onShutdownIdent)
    ∧ (runScope t ((srcs.map fun s => Stmt.declareGuard (on_shutdown s).callback)
          ++ post.map Stmt.print)).1
        = post.map Event.out
          ++ ((srcs.reverse.map fun s => dropTrace (on_shutdown s).callback).flatten) := by
  have hmap : (srcs.map fun s => Stmt.declareGuard (on_shutdown s).callback)
      = (srcs.map fun s => (on_shutdown s).callback).map Stmt.declareGuard := by
    simp [List.map_map]
  constructor
  · rw [hmap, runStmts_declareGuards]
    simp [List.map_map, Function.comp_def]
  · rw [hmap, runScope_guards_prints]
    simp [List.map_map, Function.comp_def]

/-- Claim C10: for callback bodies that capture no surrounding state — which
is every body expressible in this model, where a closure body is a closed list
of effects — the guard built by the move-capturing front end behaves
observably like the guard built by the plain front end: the two destructor
runs emit identical traces, and a scope declaring the one produces the same
trace as a scope declaring the other.  The two generated closures differ only
in their capture mode, which the firing semantics never consults. -/
theorem move_front_end_observably_equals_plain_front_end (t : ℕ) (src : CbSource) :
    dropTrace (on_shutdown src).callback = dropTrace (on_shutdown_move src).callback
    ∧ (runScope t [Stmt.declareGuard (on_shutdown src).callback]).1
        = (runScope t [Stmt.declareGuard (on_shutdown_move src).callback]).1 := by
  constructor <;>
    simp [on_shutdown, on_shutdown_move, OnShutdownCallback.new, dropTrace,
      runScope, runStmts, dropSeq, OnShutdownCallback.drop]
